import Mathlib

/-!
Verification of the `Config` construction pipeline of
`roles/starfitweb/files/html/utils.py` (starfit-server).

The embedding models `Config.__init__` and `Config._check_for_errors` as
pure functions. External collaborators (the element resolver `ion`,
`time2human`, the `Star` loader, the email deliverability checker) are
abstracted as function parameters bundled in `Collab`. File-system writes
performed by construction are returned explicitly as a list of
(path, bytes) pairs. `sys.exit`, `RuntimeError` and successful
construction are the three constructors of `Outcome`.
-/

namespace Starfit

/-- A `cgi.FieldStorage`-style upload object: `filename` (empty string for
"no filename", Python falsy) and the raw bytes of `stardata.file`. -/
structure Upload where
  filename : String
  content : List Nat
deriving Repr, DecidableEq

/-- Raw form input after `form.getfirst`: every schema field is `none` when
the value is missing or fails cerberus coercion, `some v` with `v` the
coerced value otherwise. `stardata` is the file-upload object, `none` when
the field is absent from the form (the `form["stardata"]` lookup raises). -/
structure RawForm where
  stardata : Option Upload
  email : Option String
  algorithm : Option String
  sol_size : Option Int
  z_min : Option Int
  z_max : Option Int
  combine_mode : Option Int
  pop_size : Option Int
  time_limit : Option Int
  database : Option String
  fixed : Option Int
  plotformat : Option String
  z_exclude : Option String
  z_lolim : Option String
  cdf : Option Bool

/-- The 14 schema fields after successful cerberus validation/coercion
(`v.document` in the source). -/
structure CoercedForm where
  email : String
  algorithm : String
  sol_size : Int
  z_min : Int
  z_max : Int
  combine_mode : Int
  pop_size : Int
  time_limit : Int
  database : String
  fixed : Int
  plotformat : String
  z_exclude : String
  z_lolim : String
  cdf : Bool
deriving Repr, DecidableEq

/-- Schema validation (utils.py lines 62-70): succeeds iff every field is
present and coercible; the coerced document is copied onto the object. -/
def coerceForm (f : RawForm) : Option CoercedForm := do
  let email ← f.email
  let algorithm ← f.algorithm
  let sol_size ← f.sol_size
  let z_min ← f.z_min
  let z_max ← f.z_max
  let combine_mode ← f.combine_mode
  let pop_size ← f.pop_size
  let time_limit ← f.time_limit
  let database ← f.database
  let fixed ← f.fixed
  let plotformat ← f.plotformat
  let z_exclude ← f.z_exclude
  let z_lolim ← f.z_lolim
  let cdf ← f.cdf
  pure { email, algorithm, sol_size, z_min, z_max, combine_mode, pop_size,
         time_limit, database, fixed, plotformat, z_exclude, z_lolim, cdf }

/-- Wall-clock time at construction (`datetime.now()`). -/
structure DateTime where
  year : Nat
  month : Nat
  day : Nat
  hour : Nat
  minute : Nat
  second : Nat
deriving Repr, DecidableEq

/-- Zero-padding to two digits, as strftime does for `%d %H %M %S`. -/
def pad2 (n : Nat) : String := if n < 10 then "0" ++ toString n else toString n

/-- `datetime.now().strftime("%Y-%M-%d-%H-%M-%S")` (utils.py line 59).
Note the format string: `%M` is strftime's MINUTE directive, and it appears
both in the second slot (where a month `%m` would be expected) and in the
fifth slot. -/
def startTimeString (t : DateTime) : String :=
  toString t.year ++ "-" ++ pad2 t.minute ++ "-" ++ pad2 t.day ++ "-" ++
    pad2 t.hour ++ "-" ++ pad2 t.minute ++ "-" ++ pad2 t.second

/-- Modelled from the spec: the spec (§4.1 step 3) describes the
start-time string as `YYYY-MM-DD-HH-MM-SS` with the fields year, month,
day, hour, minute, second, i.e. strftime `"%Y-%m-%d-%H-%M-%S"`. This
definition follows the spec's words, for comparison with
`startTimeString` which follows the source. -/
def specTimeString (t : DateTime) : String :=
  toString t.year ++ "-" ++ pad2 t.month ++ "-" ++ pad2 t.day ++ "-" ++
    pad2 t.hour ++ "-" ++ pad2 t.minute ++ "-" ++ pad2 t.second

/-- `s` starts with `p` (computed on the character lists so the kernel can
evaluate it). -/
def strStartsWith (s p : String) : Bool := p.data.isPrefixOf s.data

/-- `s` ends with `p` (computed on the character lists). -/
def strEndsWith (s p : String) : Bool := p.data.reverse.isPrefixOf s.data.reverse

/-- POSIX `os.path.join` restricted to two components: an absolute second
component discards the first; otherwise the parts are joined with a `/`
separator unless the first already ends in one (or is empty). -/
def osPathJoin (a b : String) : String :=
  if strStartsWith b "/" then b
  else if a = "" ∨ strEndsWith a "/" then a ++ b
  else a ++ "/" ++ b

/-- External collaborators of `Config`: `ionZ s` is `I(s).Z` (0 when the
symbol does not resolve), `time2human` renders a duration, `starOk name`
is true iff `Star(name, silent=True)` does not raise, `emailOk e` is true
iff `validate_email(e, check_deliverability=True)` does not raise. -/
structure Collab where
  ionZ : String → Nat
  time2human : Int → String
  starOk : String → Bool
  emailOk : String → Bool

/-- Python's `s.split(",")` on the character list: a comma opens a new
(possibly empty) chunk; the empty string yields `[""]`. -/
def splitOnComma : List Char → List (List Char)
  | [] => [[]]
  | c :: rest =>
    match splitOnComma rest with
    | [] => [[]]
    | h :: t => if c = ',' then [] :: h :: t else (c :: h) :: t

/-- Python's `s.split(",")`. -/
def pySplit (s : String) : List String := (splitOnComma s.data).map String.mk

/-- Element-list parsing (utils.py lines 73-76):
`[z for z in [I(i).Z for i in s.split(",")] if z != 0]`. -/
def parseZ (ionZ : String → Nat) (s : String) : List Nat :=
  ((pySplit s).map ionZ).filter (fun z => z ≠ 0)

/-- The constructed configuration object (the attributes `Config.__init__`
leaves on `self`). -/
structure Config where
  email : String
  algorithm : String
  sol_size : Int
  z_min : Int
  z_max : Int
  combine_mode : Int
  pop_size : Int
  time_limit : Int
  database : String
  fixed : Int
  plotformat : String
  z_exclude : List Nat
  z_lolim : List Nat
  cdf : Bool
  start_time : String
  filepath : String
  filename : String
  dbpath : String
  mail : Bool
  time_eta : String
  errors : List String
deriving Repr, DecidableEq

/-- Outcome of running `Config.__init__`: `sys.exit()` on a missing
`stardata` field, a raised `RuntimeError`, or a finished object. -/
inductive Outcome where
  | processExit
  | fatal (msg : String)
  | ok (c : Config)
deriving Repr, DecidableEq

/-- `Config._check_for_errors` (utils.py lines 146-176): the six admission
checks run in sequence, each appending its message to `errors`; the `Star`
and `validate_email` calls are guarded by try/except whose failure is
recorded via the `starOk` / `emailOk` oracles. -/
def checkForErrors (co : Collab) (c : Config) : List String :=
  let errors : List String := []
  let errors := if co.starOk c.filename then errors
    else errors ++ ["There is something wrong with this stellar data."]
  let errors := if c.sol_size > 10 then
    errors ++ ["Gene sizes greater than 10 are not supported."] else errors
  let errors := if c.pop_size > 1000 then
    errors ++ ["Population sizes over 1000 are not supported."] else errors
  let errors := if c.time_limit > 60 ∧ c.mail = false then
    errors ++ ["Results must be emailed for time limit > 60s."] else errors
  let errors := if c.mail = true ∧ co.emailOk c.email = false then
    errors ++ [c.email ++ " is not a valid email."] else errors
  let errors := if c.plotformat = "pdf" ∧ c.mail = false then
    errors ++ ["PDF plot format must be emailed."] else errors
  errors

/-- The stellar-data admission check in isolation (utils.py lines 147-152):
note it receives `self.filename`, not `self.filepath`. -/
def stellarCheck (co : Collab) (c : Config) : List String :=
  if co.starOk c.filename then []
  else ["There is something wrong with this stellar data."]

/-- The solution-size admission check in isolation (utils.py lines 155-156). -/
def geneCheck (c : Config) : List String :=
  if c.sol_size > 10 then ["Gene sizes greater than 10 are not supported."] else []

/-- The population-size admission check in isolation (utils.py lines 158-159). -/
def popCheck (c : Config) : List String :=
  if c.pop_size > 1000 then ["Population sizes over 1000 are not supported."] else []

/-- The time-limit/mail admission check in isolation (utils.py lines 161-162). -/
def timeMailCheck (c : Config) : List String :=
  if c.time_limit > 60 ∧ c.mail = false then
    ["Results must be emailed for time limit > 60s."] else []

/-- The email-validity admission check in isolation (utils.py lines 164-171). -/
def emailCheck (co : Collab) (c : Config) : List String :=
  if c.mail = true ∧ co.emailOk c.email = false then
    [c.email ++ " is not a valid email."] else []

/-- The plot-format admission check in isolation (utils.py lines 173-174). -/
def pdfCheck (c : Config) : List String :=
  if c.plotformat = "pdf" ∧ c.mail = false then
    ["PDF plot format must be emailed."] else []

/-- Input file resolution (utils.py lines 78-88): an upload with a
non-empty filename is persisted to `/tmp/<filename><start_time>`;
otherwise the bundled default dataset is used. Returns
(filename, filepath). -/
def resolvedFile (dataDir : String) (t : DateTime) (sd : Upload) :
    String × String :=
  if sd.filename ≠ "" then
    (sd.filename, osPathJoin "/tmp" (sd.filename ++ startTimeString t))
  else
    ("HE1327-2326.dat", osPathJoin (osPathJoin dataDir "stars") "HE1327-2326.dat")

/-- The file-system writes construction performs (utils.py lines 79-81):
the uploaded bytes go to the resolved temporary path when the upload has a
non-empty filename; nothing is written otherwise. -/
def uploadWrites (dataDir : String) (t : DateTime) (sd : Upload) :
    List (String × List Nat) :=
  if sd.filename ≠ "" then [((resolvedFile dataDir t sd).2, sd.content)] else []

/-- Time-limit override (utils.py lines 93-97): `double` forces 60*15,
`single` forces 0, anything else keeps the user value. -/
def overriddenTimeLimit (f : CoercedForm) : Int :=
  if f.algorithm = "double" then 60 * 15
  else if f.algorithm = "single" then 0
  else f.time_limit

/-- Solution-size override (utils.py lines 110-113), applied only after the
algorithm validation: `double` forces 2, `single` forces 1. -/
def overriddenSolSize (f : CoercedForm) : Int :=
  if f.algorithm = "double" then 2
  else if f.algorithm = "single" then 1
  else f.sol_size

/-- ETA derivation (utils.py lines 99-105) from the post-override time
limit. -/
def etaString (co : Collab) (tl : Int) : String :=
  if tl < 1 then "now"
  else if tl > 600 then "in more than 10 minutes"
  else "in " ++ co.time2human tl

/-- The attribute state assembled by `Config.__init__` (lines 59-113) for a
schema-valid form, before `_check_for_errors` runs (`errors` still empty). -/
def baseConfig (co : Collab) (dbDir dataDir : String) (t : DateTime)
    (sd : Upload) (f : CoercedForm) : Config :=
  { email := f.email
    algorithm := f.algorithm
    sol_size := overriddenSolSize f
    z_min := f.z_min
    z_max := f.z_max
    combine_mode := f.combine_mode
    pop_size := f.pop_size
    time_limit := overriddenTimeLimit f
    database := f.database
    fixed := f.fixed
    plotformat := f.plotformat
    z_exclude := parseZ co.ionZ f.z_exclude
    z_lolim := parseZ co.ionZ f.z_lolim
    cdf := f.cdf
    start_time := startTimeString t
    filepath := (resolvedFile dataDir t sd).2
    filename := (resolvedFile dataDir t sd).1
    dbpath := osPathJoin dbDir f.database
    mail := f.email != ""
    time_eta := etaString co (overriddenTimeLimit f)
    errors := [] }

/-- The finished object: the base state with `errors` filled in by
`_check_for_errors` (utils.py line 115). -/
def finalConfig (co : Collab) (dbDir dataDir : String) (t : DateTime)
    (sd : Upload) (f : CoercedForm) : Config :=
  let base := baseConfig co dbDir dataDir t sd f
  { base with errors := checkForErrors co base }

/-- `Config.__init__` after schema validation succeeded (utils.py lines
73-115): element-list parsing, file resolution and persistence, derived
fields, the time-limit override, the ETA, the fatal algorithm validation
(line 107-108, after which the solution-size override applies), and
finally `_check_for_errors`. The second component records the file-system
writes performed, which happen before the algorithm validation. -/
def mkConfigValid (co : Collab) (dbDir dataDir : String) (t : DateTime)
    (sd : Upload) (f : CoercedForm) : Outcome × List (String × List Nat) :=
  let writes := uploadWrites dataDir t sd
  if f.algorithm ≠ "ga" ∧ f.algorithm ≠ "double" ∧ f.algorithm ≠ "single" then
    (Outcome.fatal "Bad choice of \"algorithm\"", writes)
  else
    (Outcome.ok (finalConfig co dbDir dataDir t sd f), writes)

/-- The configuration object delivered by an outcome, when any. -/
def producedConfig : Outcome → Option Config
  | Outcome.ok c => some c
  | _ => none

/-- `Config.__init__` (utils.py lines 48-115): the `form["stardata"]`
lookup exits the process when the field is absent (lines 53-57, before the
schema runs); cerberus validation failure raises `RuntimeError("Bad form
input")` (lines 66-67, before any file is written); otherwise construction
proceeds on the coerced document. -/
def mkConfig (co : Collab) (dbDir dataDir : String) (t : DateTime)
    (form : RawForm) : Outcome × List (String × List Nat) :=
  match form.stardata with
  | none => (Outcome.processExit, [])
  | some sd =>
    match coerceForm form with
    | none => (Outcome.fatal "Bad form input", [])
    | some f => mkConfigValid co dbDir dataDir t sd f

/-! ## Helper lemmas -/

/-- The sequential error accumulation of `_check_for_errors` is the ordered
concatenation of the six independent checks. -/
lemma checkForErrors_eq (co : Collab) (c : Config) :
    checkForErrors co c = stellarCheck co c ++ geneCheck c ++ popCheck c ++
      timeMailCheck c ++ emailCheck co c ++ pdfCheck c := by
  unfold checkForErrors stellarCheck geneCheck popCheck timeMailCheck
    emailCheck pdfCheck
  split <;> split <;> split <;> split <;> split <;> split <;> simp

/-- Inversion: a successful construction delivers exactly `finalConfig` and
the recorded upload writes. -/
lemma mkConfigValid_ok_inv {co : Collab} {dbDir dataDir : String}
    {t : DateTime} {sd : Upload} {f : CoercedForm} {c : Config}
    {w : List (String × List Nat)}
    (h : mkConfigValid co dbDir dataDir t sd f = (Outcome.ok c, w)) :
    c = finalConfig co dbDir dataDir t sd f ∧ w = uploadWrites dataDir t sd := by
  unfold mkConfigValid at h
  split at h
  · simp at h
  · simp only [Prod.mk.injEq, Outcome.ok.injEq] at h
    exact ⟨h.1.symm, h.2.symm⟩

/-- Concrete collaborators used to instantiate witnesses: a small element
table, a fixed duration renderer, and oracles that accept everything. -/
def demoCollab : Collab where
  ionZ := fun s => if s = "C" then 6 else if s = "N" then 7 else if s = "O" then 8 else 0
  time2human := fun _ => "2 minutes"
  starOk := fun _ => true
  emailOk := fun _ => true

/-- A schema-valid coerced form used to instantiate witnesses. -/
def demoForm : CoercedForm where
  email := ""
  algorithm := "single"
  sol_size := 5
  z_min := 1
  z_max := 30
  combine_mode := 0
  pop_size := 200
  time_limit := 120
  database := "znuc2012.S4.star.el.y.stardb.gz"
  fixed := 0
  plotformat := "svg"
  z_exclude := "C,Xx,O"
  z_lolim := ""
  cdf := true

/-- An upload object with an empty filename (no file attached). -/
def demoUpload : Upload := ⟨"", []⟩

/-- A fixed construction instant. -/
def demoTime : DateTime := ⟨2022, 10, 12, 13, 5, 30⟩

/-! ## Claims -/

/-- C1: for every valid raw input the algorithm choice overrides the
user-supplied budget fields: `single` forces `sol_size = 1` and
`time_limit = 0`, `double` forces `sol_size = 2` and `time_limit = 900`,
and `ga` keeps the user-supplied values, regardless of the raw
`sol_size`/`time_limit`. -/
theorem algorithm_overrides_budget (co : Collab) (dbDir dataDir : String)
    (t : DateTime) (sd : Upload) (f : CoercedForm) (c : Config)
    (w : List (String × List Nat))
    (h : mkConfigValid co dbDir dataDir t sd f = (Outcome.ok c, w)) :
    (f.algorithm = "single" → c.sol_size = 1 ∧ c.time_limit = 0) ∧
    (f.algorithm = "double" → c.sol_size = 2 ∧ c.time_limit = 900) ∧
    (f.algorithm = "ga" → c.sol_size = f.sol_size ∧ c.time_limit = f.time_limit) := by
  obtain ⟨hc, -⟩ := mkConfigValid_ok_inv h
  subst hc
  refine ⟨fun ha => ?_, fun ha => ?_, fun ha => ?_⟩ <;>
    simp [finalConfig, baseConfig, overriddenSolSize, overriddenTimeLimit, ha]

/-- Witness for C1 at a concrete input: `algorithm = "single"` with
user-supplied `sol_size = 5`, `time_limit = 120` yields 1 and 0. -/
theorem algorithm_overrides_budget_witness :
    (finalConfig demoCollab "/db" "/data" demoTime demoUpload demoForm).sol_size = 1 ∧
    (finalConfig demoCollab "/db" "/data" demoTime demoUpload demoForm).time_limit = 0 :=
  (algorithm_overrides_budget demoCollab "/db" "/data" demoTime demoUpload demoForm
    (finalConfig demoCollab "/db" "/data" demoTime demoUpload demoForm)
    (uploadWrites "/data" demoTime demoUpload) rfl).1 rfl

/-- C10: a raw form lacking the `stardata` field makes construction exit
the process, with no file written, before schema validation runs (the
outcome is `processExit` for every such form, schema-valid or not, never
the schema's `RuntimeError("Bad form input")`). -/
theorem missing_stardata_exits (co : Collab) (dbDir dataDir : String)
    (t : DateTime) (form : RawForm) (h : form.stardata = none) :
    mkConfig co dbDir dataDir t form = (Outcome.processExit, []) ∧
    (mkConfig co dbDir dataDir t form).1 ≠ Outcome.fatal "Bad form input" ∧
    producedConfig (mkConfig co dbDir dataDir t form).1 = none := by
  have heq : mkConfig co dbDir dataDir t form = (Outcome.processExit, []) := by
    unfold mkConfig
    rw [h]
  exact ⟨heq, by rw [heq]; simp, by rw [heq]; rfl⟩

/-- A raw form with no `stardata` field that is also schema-invalid (every
field missing): used to show the exit precedes schema validation. -/
def noStarForm : RawForm :=
  ⟨none, none, none, none, none, none, none, none, none, none, none, none,
   none, none, none⟩

/-- Witness for C10: the all-missing form exits the process rather than
raising the schema error. -/
theorem missing_stardata_exits_witness :
    mkConfig demoCollab "/db" "/data" demoTime noStarForm = (Outcome.processExit, []) ∧
    (mkConfig demoCollab "/db" "/data" demoTime noStarForm).1 ≠ Outcome.fatal "Bad form input" ∧
    producedConfig (mkConfig demoCollab "/db" "/data" demoTime noStarForm).1 = none :=
  missing_stardata_exits demoCollab "/db" "/data" demoTime noStarForm rfl

/-- C4: for every valid raw input all six admission checks are evaluated,
none short-circuits another, their failures accumulate in order into
`errors` (the list is the ordered concatenation of the six independent
checks), none raises, and construction still succeeds — the outcome is
`Outcome.ok` — whatever the checks produced. -/
theorem admission_checks_accumulate (co : Collab) (dbDir dataDir : String)
    (t : DateTime) (sd : Upload) (f : CoercedForm)
    (h : f.algorithm = "ga" ∨ f.algorithm = "double" ∨ f.algorithm = "single") :
    (mkConfigValid co dbDir dataDir t sd f).1 =
      Outcome.ok (finalConfig co dbDir dataDir t sd f) ∧
    (finalConfig co dbDir dataDir t sd f).errors =
      stellarCheck co (finalConfig co dbDir dataDir t sd f) ++
      geneCheck (finalConfig co dbDir dataDir t sd f) ++
      popCheck (finalConfig co dbDir dataDir t sd f) ++
      timeMailCheck (finalConfig co dbDir dataDir t sd f) ++
      emailCheck co (finalConfig co dbDir dataDir t sd f) ++
      pdfCheck (finalConfig co dbDir dataDir t sd f) := by
  constructor
  · unfold mkConfigValid
    rw [if_neg]
    rcases h with h | h | h <;> simp [h]
  · show checkForErrors co (baseConfig co dbDir dataDir t sd f) = _
    rw [checkForErrors_eq]
    rfl

/-- Collaborators whose oracles reject everything, used to exercise the
failing branches of the admission checks. -/
def badCollab : Collab where
  ionZ := fun _ => 0
  time2human := fun _ => "2 minutes"
  starOk := fun _ => false
  emailOk := fun _ => false

/-- A coerced form violating four admission checks at once
(`sol_size = 20`, `pop_size = 2000`, `time_limit = 120` with no email,
`plotformat = "pdf"` with no email). -/
def overForm : CoercedForm :=
  { demoForm with
    algorithm := "ga"
    sol_size := 20
    pop_size := 2000
    time_limit := 120
    plotformat := "pdf" }

/-- Witness for C4 at a concrete input where several checks fail:
construction still succeeds and `errors` is the ordered concatenation of
the six checks, here non-empty. -/
theorem admission_checks_accumulate_witness :
    ((mkConfigValid badCollab "/db" "/data" demoTime demoUpload overForm).1 =
      Outcome.ok (finalConfig badCollab "/db" "/data" demoTime demoUpload overForm) ∧
    (finalConfig badCollab "/db" "/data" demoTime demoUpload overForm).errors =
      stellarCheck badCollab (finalConfig badCollab "/db" "/data" demoTime demoUpload overForm) ++
      geneCheck (finalConfig badCollab "/db" "/data" demoTime demoUpload overForm) ++
      popCheck (finalConfig badCollab "/db" "/data" demoTime demoUpload overForm) ++
      timeMailCheck (finalConfig badCollab "/db" "/data" demoTime demoUpload overForm) ++
      emailCheck badCollab (finalConfig badCollab "/db" "/data" demoTime demoUpload overForm) ++
      pdfCheck (finalConfig badCollab "/db" "/data" demoTime demoUpload overForm)) ∧
    (finalConfig badCollab "/db" "/data" demoTime demoUpload overForm).errors ≠ [] :=
  ⟨admission_checks_accumulate badCollab "/db" "/data" demoTime demoUpload overForm
    (Or.inl rfl), by decide⟩

/-- C7: for every valid raw input the derived `time_eta` is `"now"` when
the post-override `time_limit` is below 1, `"in more than 10 minutes"`
when it exceeds 600, and otherwise `"in "` followed by the human-readable
duration. -/
theorem eta_derivation (co : Collab) (dbDir dataDir : String) (t : DateTime)
    (sd : Upload) (f : CoercedForm) (c : Config)
    (w : List (String × List Nat))
    (h : mkConfigValid co dbDir dataDir t sd f = (Outcome.ok c, w)) :
    c.time_eta = if c.time_limit < 1 then "now"
      else if c.time_limit > 600 then "in more than 10 minutes"
      else "in " ++ co.time2human c.time_limit := by
  obtain ⟨hc, -⟩ := mkConfigValid_ok_inv h
  subst hc
  rfl

/-- `demoForm` with the `ga` algorithm, so that the user's
`time_limit = 120` survives the overrides. -/
def demoGaForm : CoercedForm := { demoForm with algorithm := "ga" }

/-- Witness for C7 at a concrete input with `time_limit = 120` (between 1
and 600, so the human-readable branch applies). -/
theorem eta_derivation_witness :
    (finalConfig demoCollab "/db" "/data" demoTime demoUpload demoGaForm).time_eta =
      if (finalConfig demoCollab "/db" "/data" demoTime demoUpload demoGaForm).time_limit < 1
      then "now"
      else if (finalConfig demoCollab "/db" "/data" demoTime demoUpload demoGaForm).time_limit > 600
      then "in more than 10 minutes"
      else "in " ++ demoCollab.time2human
        (finalConfig demoCollab "/db" "/data" demoTime demoUpload demoGaForm).time_limit :=
  eta_derivation demoCollab "/db" "/data" demoTime demoUpload demoGaForm _ _ rfl

/-- C8: a coerced form whose `algorithm` lies outside
`{ga, double, single}` makes construction raise
`RuntimeError("Bad choice of \"algorithm\"")`: no configuration object is
produced, so the failure is never collected into an `errors` list, and the
outcome is the same for every `sol_size` — the solution-size override is
applied only after this validation. -/
theorem invalid_algorithm_fatal (co : Collab) (dbDir dataDir : String)
    (t : DateTime) (form : RawForm) (sd : Upload) (f : CoercedForm) (n : Int)
    (h1 : form.stardata = some sd) (h2 : coerceForm form = some f)
    (h3 : f.algorithm ≠ "ga") (h4 : f.algorithm ≠ "double")
    (h5 : f.algorithm ≠ "single") :
    (mkConfig co dbDir dataDir t form).1 = Outcome.fatal "Bad choice of \"algorithm\"" ∧
    producedConfig (mkConfig co dbDir dataDir t form).1 = none ∧
    (mkConfigValid co dbDir dataDir t sd { f with sol_size := n }).1 =
      Outcome.fatal "Bad choice of \"algorithm\"" := by
  have hv : ∀ g : CoercedForm, g.algorithm = f.algorithm →
      (mkConfigValid co dbDir dataDir t sd g).1 =
        Outcome.fatal "Bad choice of \"algorithm\"" := by
    intro g hg
    unfold mkConfigValid
    rw [if_pos ⟨hg ▸ h3, hg ▸ h4, hg ▸ h5⟩]
  have hm : (mkConfig co dbDir dataDir t form).1 =
      Outcome.fatal "Bad choice of \"algorithm\"" := by
    unfold mkConfig
    rw [h1, h2]
    exact hv f rfl
  exact ⟨hm, by rw [hm]; rfl, hv _ rfl⟩

/-- A schema-valid raw form whose `algorithm` field is the unsupported
value `"genetic"`. -/
def badAlgForm : RawForm :=
  ⟨some ⟨"", []⟩, some "", some "genetic", some 3, some 1, some 30, some 0,
   some 100, some 15, some "db.gz", some 0, some "svg", some "", some "",
   some false⟩

/-- The coerced document of `badAlgForm`. -/
def badAlgCoerced : CoercedForm :=
  ⟨"", "genetic", 3, 1, 30, 0, 100, 15, "db.gz", 0, "svg", "", "", false⟩

/-- Witness for C8 at the concrete algorithm value `"genetic"`. -/
theorem invalid_algorithm_fatal_witness :
    (mkConfig demoCollab "/db" "/data" demoTime badAlgForm).1 =
      Outcome.fatal "Bad choice of \"algorithm\"" ∧
    producedConfig (mkConfig demoCollab "/db" "/data" demoTime badAlgForm).1 = none ∧
    (mkConfigValid demoCollab "/db" "/data" demoTime ⟨"", []⟩
      { badAlgCoerced with sol_size := 7 }).1 =
      Outcome.fatal "Bad choice of \"algorithm\"" :=
  invalid_algorithm_fatal demoCollab "/db" "/data" demoTime badAlgForm ⟨"", []⟩
    badAlgCoerced 7 rfl rfl (by decide) (by decide) (by decide)

/-- An appended string cannot equal a string that does not end in the
appended suffix. -/
lemma append_ne_of_not_suffix (e s m : String) (h : ¬ s.data <:+ m.data) :
    e ++ s ≠ m := by
  intro he
  apply h
  rw [← he, String.data_append]
  exact List.suffix_append _ _

/-- Membership in a conditional singleton. -/
lemma mem_if_singleton {p : Prop} [Decidable p] {a b : String} :
    (a ∈ if p then [b] else ([] : List String)) ↔ (p ∧ a = b) := by
  split <;> simp_all

/-- Membership in a negatively conditional singleton. -/
lemma mem_if_nil_singleton {p : Prop} [Decidable p] {a b : String} :
    (a ∈ if p then ([] : List String) else [b]) ↔ (¬ p ∧ a = b) := by
  split <;> simp_all

/-- The time-limit message appears in `_check_for_errors` output exactly
when the post-override time limit exceeds 60 and no mail was requested. -/
lemma time_msg_mem_checkForErrors (co : Collab) (c : Config) :
    ("Results must be emailed for time limit > 60s." ∈ checkForErrors co c) ↔
      (c.time_limit > 60 ∧ c.mail = false) := by
  have h1 : "Results must be emailed for time limit > 60s." ≠
      "There is something wrong with this stellar data." := by decide
  have h2 : "Results must be emailed for time limit > 60s." ≠
      "Gene sizes greater than 10 are not supported." := by decide
  have h3 : "Results must be emailed for time limit > 60s." ≠
      "Population sizes over 1000 are not supported." := by decide
  have h4 : "Results must be emailed for time limit > 60s." ≠
      c.email ++ " is not a valid email." :=
    (append_ne_of_not_suffix c.email " is not a valid email."
      "Results must be emailed for time limit > 60s." (by decide)).symm
  have h5 : "Results must be emailed for time limit > 60s." ≠
      "PDF plot format must be emailed." := by decide
  rw [checkForErrors_eq]
  simp only [List.mem_append, stellarCheck, geneCheck, popCheck,
    timeMailCheck, emailCheck, pdfCheck, mem_if_singleton, mem_if_nil_singleton]
  simp [h1, h2, h3, h4, h5]

/-- C5: for every valid raw input the errors list contains
`"Results must be emailed for time limit > 60s."` iff the post-override
`time_limit` exceeds 60 and `email` is empty (mail is requested iff
`email` is non-empty); in particular the error never occurs when the
algorithm is `single`, whose time limit is forced to 0. -/
theorem time_limit_email_error_iff (co : Collab) (dbDir dataDir : String)
    (t : DateTime) (sd : Upload) (f : CoercedForm) (c : Config)
    (w : List (String × List Nat))
    (h : mkConfigValid co dbDir dataDir t sd f = (Outcome.ok c, w)) :
    (("Results must be emailed for time limit > 60s." ∈ c.errors) ↔
      (c.time_limit > 60 ∧ c.email = "")) ∧
    (f.algorithm = "single" →
      "Results must be emailed for time limit > 60s." ∉ c.errors) := by
  obtain ⟨hc, -⟩ := mkConfigValid_ok_inv h
  subst hc
  have hErr : (finalConfig co dbDir dataDir t sd f).errors =
      checkForErrors co (baseConfig co dbDir dataDir t sd f) := rfl
  have hmem := time_msg_mem_checkForErrors co (baseConfig co dbDir dataDir t sd f)
  have hmail : ((baseConfig co dbDir dataDir t sd f).mail = false) ↔
      ((baseConfig co dbDir dataDir t sd f).email = "") := by
    show ((f.email != "") = false) ↔ (f.email = "")
    simp [bne]
  constructor
  · rw [hErr, hmem]
    exact and_congr Iff.rfl hmail
  · intro ha hinmem
    rw [hErr, hmem] at hinmem
    have htl : (baseConfig co dbDir dataDir t sd f).time_limit = 0 := by
      simp [baseConfig, overriddenTimeLimit, ha]
    rw [htl] at hinmem
    exact absurd hinmem.1 (by norm_num)

/-- Witness for C5 at a concrete input: `algorithm = "ga"`,
`time_limit = 120`, `email = ""`. -/
theorem time_limit_email_error_iff_witness :
    (("Results must be emailed for time limit > 60s." ∈
      (finalConfig demoCollab "/db" "/data" demoTime demoUpload demoGaForm).errors) ↔
      ((finalConfig demoCollab "/db" "/data" demoTime demoUpload demoGaForm).time_limit > 60 ∧
       (finalConfig demoCollab "/db" "/data" demoTime demoUpload demoGaForm).email = "")) ∧
    (demoGaForm.algorithm = "single" →
      "Results must be emailed for time limit > 60s." ∉
        (finalConfig demoCollab "/db" "/data" demoTime demoUpload demoGaForm).errors) :=
  time_limit_email_error_iff demoCollab "/db" "/data" demoTime demoUpload
    demoGaForm _ _ rfl

/-- The stellar-data message appears in `_check_for_errors` output exactly
when the `Star` loader rejects `c.filename` (the bare filename). -/
lemma stellar_msg_mem_checkForErrors (co : Collab) (c : Config) :
    ("There is something wrong with this stellar data." ∈ checkForErrors co c) ↔
      (co.starOk c.filename = false) := by
  have h2 : "There is something wrong with this stellar data." ≠
      "Gene sizes greater than 10 are not supported." := by decide
  have h3 : "There is something wrong with this stellar data." ≠
      "Population sizes over 1000 are not supported." := by decide
  have h4 : "There is something wrong with this stellar data." ≠
      "Results must be emailed for time limit > 60s." := by decide
  have h5 : "There is something wrong with this stellar data." ≠
      c.email ++ " is not a valid email." :=
    (append_ne_of_not_suffix c.email " is not a valid email."
      "There is something wrong with this stellar data." (by decide)).symm
  have h6 : "There is something wrong with this stellar data." ≠
      "PDF plot format must be emailed." := by decide
  rw [checkForErrors_eq]
  simp only [List.mem_append, stellarCheck, geneCheck, popCheck,
    timeMailCheck, emailCheck, pdfCheck, mem_if_singleton, mem_if_nil_singleton]
  simp [h2, h3, h4, h5, h6]

/-- The start-time string is never empty (it contains dash separators). -/
lemma startTimeString_length_pos (t : DateTime) :
    0 < (startTimeString t).length := by
  unfold startTimeString
  have hd : ("-" : String).length = 1 := rfl
  simp only [String.length_append, hd]
  omega

/-- Joining cannot shorten the second component. -/
lemma osPathJoin_length_le (a b : String) :
    b.length ≤ (osPathJoin a b).length := by
  unfold osPathJoin
  split
  · exact le_refl _
  · split <;> simp [String.length_append]

/-- C9: the stellar-data admission check applies the `Star` validator to
the bare `filename`, not the resolved `filepath`: for an uploaded file the
error's presence depends only on `sd.filename`, while the uploaded bytes
are persisted at `filepath`, which differs from what the validator
receives. -/
theorem stellar_check_uses_bare_filename (co : Collab)
    (dbDir dataDir : String) (t : DateTime) (sd : Upload) (f : CoercedForm)
    (c : Config) (w : List (String × List Nat)) (hfn : sd.filename ≠ "")
    (h : mkConfigValid co dbDir dataDir t sd f = (Outcome.ok c, w)) :
    c.filename = sd.filename ∧
    (("There is something wrong with this stellar data." ∈ c.errors) ↔
      co.starOk sd.filename = false) ∧
    w = [(c.filepath, sd.content)] ∧
    c.filepath ≠ sd.filename := by
  obtain ⟨hc, hw⟩ := mkConfigValid_ok_inv h
  subst hc
  subst hw
  have hres : resolvedFile dataDir t sd =
      (sd.filename, osPathJoin "/tmp" (sd.filename ++ startTimeString t)) := by
    unfold resolvedFile
    rw [if_pos hfn]
  have hfile : (finalConfig co dbDir dataDir t sd f).filename = sd.filename := by
    show (resolvedFile dataDir t sd).1 = _
    rw [hres]
  have hpath : (finalConfig co dbDir dataDir t sd f).filepath =
      osPathJoin "/tmp" (sd.filename ++ startTimeString t) := by
    show (resolvedFile dataDir t sd).2 = _
    rw [hres]
  refine ⟨hfile, ?_, ?_, ?_⟩
  · have hmem := stellar_msg_mem_checkForErrors co (baseConfig co dbDir dataDir t sd f)
    have hbase : (baseConfig co dbDir dataDir t sd f).filename = sd.filename := hfile
    rw [show (finalConfig co dbDir dataDir t sd f).errors =
      checkForErrors co (baseConfig co dbDir dataDir t sd f) from rfl, hmem, hbase]
  · show uploadWrites dataDir t sd = _
    unfold uploadWrites
    rw [if_pos hfn]
    rw [show (finalConfig co dbDir dataDir t sd f).filepath =
      (resolvedFile dataDir t sd).2 from rfl]
  · rw [hpath]
    intro heq
    have hlen := congrArg String.length heq
    have h1 : (sd.filename ++ startTimeString t).length ≤
        (osPathJoin "/tmp" (sd.filename ++ startTimeString t)).length :=
      osPathJoin_length_le _ _
    rw [String.length_append] at h1
    have h2 := startTimeString_length_pos t
    rw [hlen] at h1
    omega

/-- An upload carrying a non-empty filename and some bytes. -/
def demoUploadFile : Upload := ⟨"mydata.dat", [72, 101]⟩

/-- Witness for C9 at a concrete uploaded file. -/
theorem stellar_check_uses_bare_filename_witness :
    (finalConfig demoCollab "/db" "/data" demoTime demoUploadFile demoGaForm).filename =
      demoUploadFile.filename ∧
    (("There is something wrong with this stellar data." ∈
      (finalConfig demoCollab "/db" "/data" demoTime demoUploadFile demoGaForm).errors) ↔
      demoCollab.starOk demoUploadFile.filename = false) ∧
    uploadWrites "/data" demoTime demoUploadFile =
      [((finalConfig demoCollab "/db" "/data" demoTime demoUploadFile demoGaForm).filepath,
        demoUploadFile.content)] ∧
    (finalConfig demoCollab "/db" "/data" demoTime demoUploadFile demoGaForm).filepath ≠
      demoUploadFile.filename :=
  stellar_check_uses_bare_filename demoCollab "/db" "/data" demoTime
    demoUploadFile demoGaForm _ _ (by decide) rfl

/-- `demoGaForm` with an absolute, attacker-chosen `database` value. -/
def escapeForm : CoercedForm := { demoGaForm with database := "/etc/passwd" }

/-- Counterexample to C2: with `db_dir = "/var/starfit/db"` and the
user-supplied `database = "/etc/passwd"`, construction succeeds and the
resulting `dbpath` IS the absolute user-supplied path — `os.path.join`
discards `db_dir` when its second argument is absolute, so the join does
not prevent escape from `db_dir`. -/
theorem dbpath_absolute_escape_counterexample :
    (mkConfigValid demoCollab "/var/starfit/db" "/data" demoTime demoUpload escapeForm).1 =
      Outcome.ok (finalConfig demoCollab "/var/starfit/db" "/data" demoTime demoUpload escapeForm) ∧
    (finalConfig demoCollab "/var/starfit/db" "/data" demoTime demoUpload escapeForm).dbpath =
      "/etc/passwd" ∧
    escapeForm.database = "/etc/passwd" ∧
    strStartsWith "/etc/passwd" "/" = true ∧
    strStartsWith "/etc/passwd" "/var/starfit/db" = false :=
  ⟨rfl, rfl, rfl, by decide, by decide⟩

/-- C2 amended: `dbpath` always equals `os.path.join(db_dir, database)`;
when `database` is relative this stays under `db_dir` (with or without an
inserted separator), but when `database` is absolute the join returns the
user-supplied `database` itself, so the caller must sanitize `database`. -/
theorem dbpath_join_amended (co : Collab) (dbDir dataDir : String)
    (t : DateTime) (sd : Upload) (f : CoercedForm) (c : Config)
    (w : List (String × List Nat))
    (h : mkConfigValid co dbDir dataDir t sd f = (Outcome.ok c, w)) :
    c.dbpath = osPathJoin dbDir f.database ∧
    (strStartsWith f.database "/" = true → c.dbpath = f.database) ∧
    (strStartsWith f.database "/" = false →
      c.dbpath = dbDir ++ "/" ++ f.database ∨ c.dbpath = dbDir ++ f.database) := by
  obtain ⟨hc, -⟩ := mkConfigValid_ok_inv h
  subst hc
  refine ⟨rfl, fun habs => ?_, fun hrel => ?_⟩
  · show osPathJoin dbDir f.database = f.database
    unfold osPathJoin
    rw [if_pos habs]
  · show osPathJoin dbDir f.database = _ ∨ osPathJoin dbDir f.database = _
    unfold osPathJoin
    rw [if_neg (by simp [hrel])]
    split
    · exact Or.inr rfl
    · exact Or.inl rfl

/-- Witness for the amended C2 at a relative `database` value. -/
theorem dbpath_join_amended_witness :
    (finalConfig demoCollab "/var/starfit/db" "/data" demoTime demoUpload demoGaForm).dbpath =
      osPathJoin "/var/starfit/db" demoGaForm.database ∧
    (strStartsWith demoGaForm.database "/" = true →
      (finalConfig demoCollab "/var/starfit/db" "/data" demoTime demoUpload demoGaForm).dbpath =
        demoGaForm.database) ∧
    (strStartsWith demoGaForm.database "/" = false →
      (finalConfig demoCollab "/var/starfit/db" "/data" demoTime demoUpload demoGaForm).dbpath =
        "/var/starfit/db" ++ "/" ++ demoGaForm.database ∨
      (finalConfig demoCollab "/var/starfit/db" "/data" demoTime demoUpload demoGaForm).dbpath =
        "/var/starfit/db" ++ demoGaForm.database) :=
  dbpath_join_amended demoCollab "/var/starfit/db" "/data" demoTime demoUpload
    demoGaForm _ _ rfl

/-- C3 (code defect): the source formats the start time with strftime
`"%Y-%M-%d-%H-%M-%S"`, whose second directive `%M` is the MINUTE, not the
month `%m`: at 2022-10-12 13:05:30 the temporary file name carries
`2022-05-12-13-05-30` (year-minute-day-hour-minute-second), not the
`YYYY-MM-DD-HH-MM-SS` stamp `2022-10-12-13-05-30` the spec describes. -/
theorem timestamp_minute_for_month :
    startTimeString demoTime = "2022-05-12-13-05-30" ∧
    specTimeString demoTime = "2022-10-12-13-05-30" ∧
    startTimeString demoTime ≠ specTimeString demoTime ∧
    uploadWrites "/data" demoTime demoUploadFile =
      [("/tmp/mydata.dat2022-05-12-13-05-30", [72, 101])] :=
  ⟨rfl, rfl, by decide, rfl⟩

/-- C6: the element lists stored on the configuration come from splitting
the raw strings on commas, resolving each token through the element-lookup
collaborator, and dropping exactly the entries that resolve to 0: the
results contain no 0 and are sublists of the resolved token lists (order
and duplicates of the surviving entries preserved). -/
theorem element_lists_parsed (co : Collab) (dbDir dataDir : String)
    (t : DateTime) (sd : Upload) (f : CoercedForm) (c : Config)
    (w : List (String × List Nat))
    (h : mkConfigValid co dbDir dataDir t sd f = (Outcome.ok c, w)) :
    c.z_exclude = ((pySplit f.z_exclude).map co.ionZ).filter (fun z => z ≠ 0) ∧
    c.z_lolim = ((pySplit f.z_lolim).map co.ionZ).filter (fun z => z ≠ 0) ∧
    0 ∉ c.z_exclude ∧ 0 ∉ c.z_lolim ∧
    c.z_exclude.Sublist ((pySplit f.z_exclude).map co.ionZ) ∧
    c.z_lolim.Sublist ((pySplit f.z_lolim).map co.ionZ) := by
  obtain ⟨hc, -⟩ := mkConfigValid_ok_inv h
  subst hc
  refine ⟨rfl, rfl, ?_, ?_, List.filter_sublist _, List.filter_sublist _⟩
  · show 0 ∉ parseZ co.ionZ f.z_exclude
    simp [parseZ]
  · show 0 ∉ parseZ co.ionZ f.z_lolim
    simp [parseZ]

/-- Witness for C6: `z_exclude = "C,Xx,O"` resolves to `[6, 0, 8]` and the
unresolved `Xx` is dropped, yielding `[6, 8]`. -/
theorem element_lists_parsed_witness :
    ((finalConfig demoCollab "/db" "/data" demoTime demoUpload demoGaForm).z_exclude =
      ((pySplit demoGaForm.z_exclude).map demoCollab.ionZ).filter (fun z => z ≠ 0) ∧
    (finalConfig demoCollab "/db" "/data" demoTime demoUpload demoGaForm).z_lolim =
      ((pySplit demoGaForm.z_lolim).map demoCollab.ionZ).filter (fun z => z ≠ 0) ∧
    0 ∉ (finalConfig demoCollab "/db" "/data" demoTime demoUpload demoGaForm).z_exclude ∧
    0 ∉ (finalConfig demoCollab "/db" "/data" demoTime demoUpload demoGaForm).z_lolim ∧
    ((finalConfig demoCollab "/db" "/data" demoTime demoUpload demoGaForm).z_exclude).Sublist
      ((pySplit demoGaForm.z_exclude).map demoCollab.ionZ) ∧
    ((finalConfig demoCollab "/db" "/data" demoTime demoUpload demoGaForm).z_lolim).Sublist
      ((pySplit demoGaForm.z_lolim).map demoCollab.ionZ)) ∧
    (finalConfig demoCollab "/db" "/data" demoTime demoUpload demoGaForm).z_exclude = [6, 8] :=
  ⟨element_lists_parsed demoCollab "/db" "/data" demoTime demoUpload
    demoGaForm _ _ rfl, rfl⟩

end Starfit
